import Mathlib

/-!
Shallow embedding of the GlavBot moderation bot (src/utils.py, src/database.py,
src/bot.py) and proofs about its moderation logic: time parsing, the warning
state machine, the mute lifecycle, antiflood, and the word filter.

Conventions of the embedding:
* characters are handled through their code points (Char.toNat), so that the
  case folding done by Python str.lower() is plain Nat arithmetic;
* timestamps are Nat seconds; datetime.now() becomes an explicit `now` argument;
* the sqlite tables become assoc lists inside the `DB` structure; a
  read-modify-write SQL statement becomes a pure function `DB -> DB x result`;
* per-chat settings (the chat_settings row) are passed as a `Settings` value;
* platform calls (delete/ban/restrict/send) are modeled by the `Outcome` of a
  handler, on the happy path where they succeed.
-/

namespace GlavBot

/-- Python `str.lower()` on one code point, restricted to the ASCII range the
repository uses for units: codes 65..90 (A..Z) map to +32, all else unchanged. -/
def lowerCode (n : Nat) : Nat :=
  if 65 ≤ n && n ≤ 90 then n + 32 else n

/-- Code points matched by the regex class `\d` (ASCII digits 48..57). -/
def isDigitCode (n : Nat) : Bool :=
  48 ≤ n && n ≤ 57

/-- Code points matched by the regex class `[smhd]`:
115 = s, 109 = m, 104 = h, 100 = d. -/
def isUnitCode (n : Nat) : Bool :=
  n = 115 || n = 109 || n = 104 || n = 100

/-- Seconds per unit, from the `units` dict of `utils.parse_time`
(`units.get(unit, 60)` falls back to 60, though the regex makes that dead). -/
def unitSecondsCode (n : Nat) : Nat :=
  if n = 115 then 1
  else if n = 109 then 60
  else if n = 104 then 3600
  else if n = 100 then 86400
  else 60

/-- Numeric value of a decimal digit-code string: Python `int(value)` applied to
the first regex group. -/
def digitsVal (ds : List Nat) : Nat :=
  ds.foldl (fun acc n => acc * 10 + (n - 48)) 0

/-- `utils.parse_time`: falsy input gives None; otherwise
`re.match(r'(\d+)([smhd])', time_str.lower())` matches a maximal run of leading
digits that must be followed by a unit letter (a prefix match: trailing
characters are ignored), and the result is digits times the unit multiplier. -/
def parse_time (time_str : String) : Option Nat :=
  if time_str = "" then none
  else
    let low := time_str.data.map (fun c => lowerCode c.toNat)
    let ds := low.takeWhile isDigitCode
    if ds = [] then none
    else
      match low.dropWhile isDigitCode with
      | [] => none
      | c :: _ => if isUnitCode c then some (digitsVal ds * unitSecondsCode c) else none

/-- Strings on which the regex `(\d+)([smhd])` of `parse_time` matches at
position 0: a nonempty run of digits followed by a unit letter (in either case),
then anything. -/
def timePat (s : String) : Prop :=
  ∃ ds c rest, s.data = ds ++ c :: rest ∧ ds ≠ []
    ∧ (∀ d ∈ ds, isDigitCode d.toNat = true)
    ∧ isUnitCode (lowerCode c.toNat) = true

end GlavBot

namespace GlavBot

/-! Helper lemmas about the time parser. -/

theorem lowerCode_digit {n : Nat} (h : isDigitCode n = true) : lowerCode n = n := by
  simp only [isDigitCode, Bool.and_eq_true, decide_eq_true_eq] at h
  simp only [lowerCode, Bool.and_eq_true, decide_eq_true_eq]
  rw [if_neg]
  omega

theorem isDigitCode_lowerCode (n : Nat) : isDigitCode (lowerCode n) = isDigitCode n := by
  unfold lowerCode isDigitCode
  split
  · next h =>
    simp only [Bool.and_eq_true, decide_eq_true_eq] at h
    apply Bool.eq_iff_iff.mpr
    simp only [Bool.and_eq_true, decide_eq_true_eq]
    omega
  · rfl

theorem unitCode_not_digit {n : Nat} (h : isUnitCode n = true) : isDigitCode n = false := by
  simp only [isUnitCode, Bool.or_eq_true, decide_eq_true_eq] at h
  simp only [isDigitCode, Bool.eq_false_iff, ne_eq, Bool.and_eq_true, decide_eq_true_eq]
  omega

theorem takeWhile_append_all {p : Nat → Bool} {l1 : List Nat} (l2 : List Nat)
    (h : ∀ c ∈ l1, p c = true) :
    (l1 ++ l2).takeWhile p = l1 ++ l2.takeWhile p := by
  induction l1 with
  | nil => rfl
  | cons a as ih =>
    have ha : p a = true := h a (List.mem_cons_self a as)
    rw [List.cons_append, List.takeWhile_cons_of_pos ha,
      ih (fun c hc => h c (List.mem_cons_of_mem a hc))]
    rfl

theorem dropWhile_append_all {p : Nat → Bool} {l1 : List Nat} (l2 : List Nat)
    (h : ∀ c ∈ l1, p c = true) :
    (l1 ++ l2).dropWhile p = l2.dropWhile p := by
  induction l1 with
  | nil => rfl
  | cons a as ih =>
    have ha : p a = true := h a (List.mem_cons_self a as)
    rw [List.cons_append, List.dropWhile_cons_of_pos ha,
      ih (fun c hc => h c (List.mem_cons_of_mem a hc))]

/-- Computation of `parse_time` on any string that starts with digits, then a
unit letter, then arbitrary trailing characters. -/
theorem parse_time_token (ds : List Char) (u : Char) (rest : List Char)
    (hne : ds ≠ []) (hds : ∀ d ∈ ds, isDigitCode d.toNat = true)
    (hu : isUnitCode (lowerCode u.toNat) = true) :
    parse_time (String.mk (ds ++ u :: rest))
      = some (digitsVal (ds.map Char.toNat) * unitSecondsCode (lowerCode u.toNat)) := by
  have hnil : String.mk (ds ++ u :: rest) ≠ "" := by
    intro h
    have h2 : ds ++ u :: rest = ([] : List Char) := congrArg String.data h
    rcases ds with _ | ⟨a, as⟩
    · exact List.cons_ne_nil u rest h2
    · exact List.cons_ne_nil a (as ++ u :: rest) h2
  have hdata : (String.mk (ds ++ u :: rest)).data = ds ++ u :: rest := rfl
  rw [parse_time, if_neg hnil]
  simp only [hdata, List.map_append, List.map_cons]
  set f : Char → Nat := fun c => lowerCode c.toNat with hf
  have hall : ∀ c ∈ ds.map f, isDigitCode c = true := by
    intro c hc
    rcases List.mem_map.mp hc with ⟨d, hd, rfl⟩
    rw [hf]
    rw [isDigitCode_lowerCode]
    exact hds d hd
  have hfu : isDigitCode (f u) = false := by
    rw [hf]
    exact unitCode_not_digit hu
  have htake : ((ds.map f) ++ f u :: rest.map f).takeWhile isDigitCode = ds.map f := by
    rw [takeWhile_append_all _ hall, List.takeWhile_cons, hfu]
    simp
  have hdrop : ((ds.map f) ++ f u :: rest.map f).dropWhile isDigitCode = f u :: rest.map f := by
    rw [dropWhile_append_all _ hall, List.dropWhile_cons, hfu]
    simp
  rw [htake, hdrop]
  have hmapne : ds.map f ≠ [] := by
    intro h
    exact hne (List.map_eq_nil_iff.mp h)
  rw [if_neg hmapne]
  have hmap : ds.map f = ds.map Char.toNat := by
    apply List.map_congr_left
    intro d hd
    rw [hf]
    exact lowerCode_digit (hds d hd)
  simp only [hu, if_pos]
  rw [hmap]

/-- Completeness direction: if `parse_time` returns a value, the input matches
the pattern. -/
theorem timePat_of_parse_time {s : String} {v : Nat} (h : parse_time s = some v) :
    timePat s := by
  by_cases hs : s = ""
  · rw [parse_time, if_pos hs] at h
    exact absurd h (by simp)
  rw [parse_time, if_neg hs] at h
  set f : Char → Nat := fun c => lowerCode c.toNat with hf
  set low := s.data.map f with hlow
  by_cases hds : low.takeWhile isDigitCode = []
  · rw [if_pos hds] at h
    exact absurd h (by simp)
  rw [if_neg hds] at h
  rcases hdrop : low.dropWhile isDigitCode with _ | ⟨c, t⟩
  · rw [hdrop] at h
    exact absurd h (by simp)
  rw [hdrop] at h
  by_cases hc : isUnitCode c = true
  case neg =>
    exact absurd h (by simp [hc])
  set k := (low.takeWhile isDigitCode).length with hk
  have hsplit : low = low.takeWhile isDigitCode ++ c :: t := by
    rw [← hdrop, List.takeWhile_append_dropWhile]
  have hlen : s.data.length = k + 1 + t.length := by
    have h1 : low.length = s.data.length := by rw [hlow, List.length_map]
    have h2 : low.length = k + (t.length + 1) := by
      rw [hsplit, List.length_append, List.length_cons, hk]
    omega
  have hk_lt : k < s.data.length := by omega
  have htk : low.take k = low.takeWhile isDigitCode := by
    conv_lhs => rw [hsplit, hk]
    exact List.take_left _ _
  have hdropk : (s.data.drop k).map f = c :: t := by
    rw [List.map_drop, ← hlow]
    conv_lhs => rw [hsplit, hk]
    exact List.drop_left _ _
  have hcons : s.data.drop k = s.data[k] :: s.data.drop (k + 1) :=
    List.drop_eq_getElem_cons hk_lt
  rw [hcons, List.map_cons] at hdropk
  injection hdropk with hcval htail
  refine ⟨s.data.take k, s.data[k], s.data.drop (k + 1), ?_, ?_, ?_, ?_⟩
  · rw [List.getElem_cons_drop, List.take_append_drop]
  · intro hnil
    apply hds
    have h0 : (s.data.take k).length = 0 := by rw [hnil]; rfl
    rw [List.length_take] at h0
    have hk0 : k = 0 := by omega
    rw [hk] at hk0
    exact List.length_eq_zero.mp hk0
  · intro d hd
    have hmem : f d ∈ low.takeWhile isDigitCode := by
      rw [← htk, hlow, ← List.map_take]
      exact List.mem_map_of_mem f hd
    have hdig : isDigitCode (f d) = true := List.mem_takeWhile_imp hmem
    rw [hf] at hdig
    rwa [isDigitCode_lowerCode] at hdig
  · have hcval2 : lowerCode (Char.toNat (s.data[k])) = c := hcval
    rw [hcval2]
    exact hc

/-- C6: the time parser maps "10m" to 600 and "2h" to 7200; every token of the
form digits-then-unit (unit among s, m, h, d, case-insensitive) yields the digit
value times the unit multiplier; the empty string, "bogus", and any input on
which the pattern does not match yield no value. -/
theorem C6_parse_time_correct :
    parse_time "10m" = some 600 ∧ parse_time "2h" = some 7200
    ∧ parse_time "" = none ∧ parse_time "bogus" = none
    ∧ (∀ ds u, ds ≠ [] → (∀ d ∈ ds, isDigitCode d.toNat = true)
        → isUnitCode (lowerCode u.toNat) = true
        → parse_time (String.mk (ds ++ [u]))
            = some (digitsVal (ds.map Char.toNat) * unitSecondsCode (lowerCode u.toNat)))
    ∧ (∀ s, ¬ timePat s → parse_time s = none) := by
  refine ⟨by decide, by decide, by decide, by decide, ?_, ?_⟩
  · intro ds u hne hds hu
    exact parse_time_token ds u [] hne hds hu
  · intro s hnp
    cases hp : parse_time s with
    | none => rfl
    | some v => exact absurd (timePat_of_parse_time hp) hnp

/-- Witness for C6: the general token clause at "4M" and the no-match clause at
"x1m". -/
theorem C6_parse_time_correct_witness :
    parse_time "4M" = some 240 ∧ parse_time "x1m" = none := by
  have h := C6_parse_time_correct
  constructor
  · exact h.2.2.2.2.1 ['4'] 'M' (by decide) (by decide) (by decide)
  · apply h.2.2.2.2.2
    rintro ⟨ds, c, rest, heq, hne, hdig, hunit⟩
    rcases ds with _ | ⟨a, as⟩
    · exact hne rfl
    · have h2 : ('x' :: '1' :: 'm' :: ([] : List Char)) = a :: (as ++ c :: rest) := heq
      injection h2 with h3 h4
      have hx := hdig a (List.mem_cons_self a as)
      rw [← h3] at hx
      exact absurd hx (by decide)

/-- C10: the regex of `parse_time` is a prefix match, so trailing characters
after the digits-unit token are ignored and the value equals the one of the
bare token. -/
theorem C10_parse_time_ignores_trailing :
    parse_time "10mfoo" = some 600 ∧ parse_time "10m extra" = some 600
    ∧ (∀ ds u rest, ds ≠ [] → (∀ d ∈ ds, isDigitCode d.toNat = true)
        → isUnitCode (lowerCode u.toNat) = true
        → parse_time (String.mk (ds ++ u :: rest)) = parse_time (String.mk (ds ++ [u]))) := by
  refine ⟨by decide, by decide, ?_⟩
  intro ds u rest hne hds hu
  rw [parse_time_token ds u rest hne hds hu, parse_time_token ds u [] hne hds hu]

/-- Witness for C10: "7szz" parses like "7s". -/
theorem C10_parse_time_ignores_trailing_witness :
    parse_time "7szz" = parse_time "7s" := by
  exact C10_parse_time_ignores_trailing.2.2 ['7'] 's' ['z', 'z']
    (by decide) (by decide) (by decide)

/-! Data model: the sqlite tables of src/database.py as pure state. -/

/-- Row of the `warnings` table: id (AUTOINCREMENT primary key), chat_id,
user_id, warned_by, reason, created_at. -/
structure Warning where
  id : Nat
  chat_id : Int
  user_id : Int
  warned_by : Int
  reason : String
  created_at : Nat
deriving DecidableEq, Repr

/-- Row of the `user_stats` table: messages_count, first_seen, last_seen
(keyed by chat_id, user_id). -/
structure UserStatsRow where
  messages_count : Nat
  first_seen : Nat
  last_seen : Nat
deriving DecidableEq, Repr

/-- Lookup in a table keyed by (chat_id, user_id): SELECT by primary key. -/
def lookupKV {B : Type} (k : Int × Int) : List ((Int × Int) × B) → Option B
  | [] => none
  | (q, v) :: rest => if k = q then some v else lookupKV k rest

/-- DELETE of all rows with the given primary key. -/
def eraseKV {B : Type} (k : Int × Int) (l : List ((Int × Int) × B)) :
    List ((Int × Int) × B) :=
  l.filter (fun p => decide (p.1 ≠ k))

/-- INSERT OR REPLACE on a table keyed by (chat_id, user_id). -/
def upsertKV {B : Type} (k : Int × Int) (v : B) (l : List ((Int × Int) × B)) :
    List ((Int × Int) × B) :=
  eraseKV k l ++ [(k, v)]

/-- State of the database: the warnings, muted_users and user_stats tables,
plus the next AUTOINCREMENT id for warnings. The chat_settings table is
modeled separately by the `Settings` value a handler reads. -/
structure DB where
  warnings : List Warning
  nextWarnId : Nat
  muted_users : List ((Int × Int) × Nat)
  user_stats : List ((Int × Int) × UserStatsRow)
deriving DecidableEq, Repr

/-- WHERE chat_id = ? AND user_id = ? on the warnings table. -/
def matchesUser (chat_id user_id : Int) (w : Warning) : Bool :=
  decide (w.chat_id = chat_id) && decide (w.user_id = user_id)

namespace Database

/-- `Database.get_warnings_count`: SELECT COUNT(*) of the warnings of one user
in one chat. -/
def get_warnings_count (db : DB) (chat_id user_id : Int) : Nat :=
  (db.warnings.filter (matchesUser chat_id user_id)).length

/-- `Database.add_warning`: INSERT a warning row with created_at = now, then
return the resulting count for this user. -/
def add_warning (db : DB) (chat_id user_id warned_by : Int) (reason : String)
    (now : Nat) : DB × Nat :=
  let db2 : DB :=
    { db with
      warnings := db.warnings ++ [⟨db.nextWarnId, chat_id, user_id, warned_by, reason, now⟩],
      nextWarnId := db.nextWarnId + 1 }
  (db2, get_warnings_count db2 chat_id user_id)

/-- The row selected by `SELECT id FROM warnings WHERE ... ORDER BY created_at
DESC LIMIT 1`: the fold keeps the row with the greatest created_at (ties keep
the earlier row; the UNIQUE(chat_id, user_id, created_at) table constraint
makes ties impossible among one user). -/
def latestRow (l : List Warning) : Option Warning :=
  l.foldl
    (fun acc w =>
      match acc with
      | none => some w
      | some b => if b.created_at < w.created_at then some w else some b)
    none

/-- `Database.remove_warning`: DELETE the row whose id the subquery selects
(a no-op when the subquery is empty, since id = NULL matches nothing), then
return the resulting count. -/
def remove_warning (db : DB) (chat_id user_id : Int) : DB × Nat :=
  match latestRow (db.warnings.filter (matchesUser chat_id user_id)) with
  | none => (db, get_warnings_count db chat_id user_id)
  | some w =>
    let db2 : DB := { db with warnings := db.warnings.filter (fun x => decide (x.id ≠ w.id)) }
    (db2, get_warnings_count db2 chat_id user_id)

/-- `Database.clear_warnings`: DELETE all warnings of one user in one chat. -/
def clear_warnings (db : DB) (chat_id user_id : Int) : DB :=
  { db with warnings := db.warnings.filter (fun w => !(matchesUser chat_id user_id w)) }

/-- `Database.add_mute`: mute_until = now + duration, INSERT OR REPLACE. -/
def add_mute (db : DB) (chat_id user_id : Int) (duration_seconds : Nat)
    (now : Nat) : DB × Nat :=
  let mute_until := now + duration_seconds
  ({ db with muted_users := upsertKV (chat_id, user_id) mute_until db.muted_users },
   mute_until)

/-- `Database.remove_mute`: DELETE the mute row of one user in one chat. -/
def remove_mute (db : DB) (chat_id user_id : Int) : DB :=
  { db with muted_users := eraseKV (chat_id, user_id) db.muted_users }

/-- `Database.is_muted`: no row gives false; a future expiry gives true; an
expiry at or before now gives false and deletes the stale row. -/
def is_muted (db : DB) (chat_id user_id : Int) (now : Nat) : Bool × DB :=
  match lookupKV (chat_id, user_id) db.muted_users with
  | none => (false, db)
  | some mute_until =>
    if now < mute_until then (true, db)
    else (false, remove_mute db chat_id user_id)

/-- `Database.update_user_stats`: INSERT OR REPLACE with
messages_count = COALESCE(old + 1, 1), first_seen = COALESCE(old, now),
last_seen = now. The username and first_name arguments of the Python method
are unused by its SQL and are omitted. -/
def update_user_stats (db : DB) (chat_id user_id : Int) (now : Nat) : DB :=
  let row : UserStatsRow :=
    match lookupKV (chat_id, user_id) db.user_stats with
    | none => ⟨1, now, now⟩
    | some st => ⟨st.messages_count + 1, st.first_seen, now⟩
  { db with user_stats := upsertKV (chat_id, user_id) row db.user_stats }

end Database

/-! Engine: the command handlers and the message pipeline of src/bot.py. -/

/-- Fields of the chat_settings row that the modeled handlers read
(warn_limit, antiflood_enabled, antiflood_count, antiflood_seconds, bad_words). -/
structure Settings where
  warn_limit : Nat
  antiflood_enabled : Bool
  antiflood_count : Nat
  antiflood_seconds : Nat
  bad_words : List String
deriving DecidableEq, Repr

/-- Core of `warn_command` after the admin and reply-to checks: add a warning;
on reaching the warn limit ban the member and clear all their warnings.
Returns the updated database and whether a ban was issued. -/
def warn_command (db : DB) (chat_id target_id issuer_id : Int) (reason : String)
    (warn_limit : Nat) (now : Nat) : DB × Bool :=
  let p := Database.add_warning db chat_id target_id issuer_id reason now
  if warn_limit ≤ p.2 then
    (Database.clear_warnings p.1 chat_id target_id, true)
  else
    (p.1, false)

/-- Duration chosen by `mute_command`: parse the first argument if present;
the Python `if not duration` then replaces both None and 0 by the default
3600 seconds. -/
def muteDuration (args : List String) : Nat :=
  let duration : Option Nat :=
    match args with
    | [] => none
    | a :: _ => parse_time a
  match duration with
  | none => 3600
  | some n => if n = 0 then 3600 else n

/-- Core of `mute_command` after the admin and reply-to checks: restrict the
member and persist the mute. Returns the updated database and the duration. -/
def mute_command (db : DB) (chat_id target_id : Int) (args : List String)
    (now : Nat) : DB × Nat :=
  ((Database.add_mute db chat_id target_id (muteDuration args) now).1,
   muteDuration args)

/-- Bool test that a needle occurs in a haystack: Python `needle in hay`
on the lists of (lowered) code points. -/
def isPrefB : List Nat → List Nat → Bool
  | [], _ => true
  | _ :: _, [] => false
  | a :: as, b :: bs => decide (a = b) && isPrefB as bs

/-- Substring occurrence at any position. -/
def containsSub (needle : List Nat) : List Nat → Bool
  | [] => isPrefB needle []
  | c :: rest => isPrefB needle (c :: rest) || containsSub needle rest

/-- Lowered code points of a string: Python `s.lower()` for the word filter. -/
def lowerStr (s : String) : List Nat :=
  s.data.map (fun c => lowerCode c.toNat)

/-- Observable platform effect of handling one inbound text message:
* mutedDeleted: the message was deleted because the sender is muted;
* floodMuted: the message was deleted, the sender restricted for 5 minutes and
  a 300 second mute persisted (the antiflood branch);
* wordWarned: the message was deleted and a warning issued (count below limit);
* wordBanned: the message was deleted, a warning issued and the sender banned
  (count at or above limit);
* normal: no moderation action. -/
inductive Outcome where
  | mutedDeleted
  | floodMuted
  | wordWarned (word : String) (count : Nat)
  | wordBanned (word : String) (count : Nat)
  | normal
deriving DecidableEq, Repr

/-- Process state seen by `handle_messages`: the database plus the in-memory
flood_cache of message timestamps keyed by (chat_id, user_id). -/
structure Env where
  db : DB
  flood_cache : List ((Int × Int) × List Nat)
deriving DecidableEq, Repr

/-- Word-filter block of `handle_messages` (АНТИ-МАТ): the first bad word that
occurs case-insensitively in the text triggers deletion plus a warning with
reason "Мат: word"; at the warn limit the sender is additionally banned.
No clearing of warnings happens on this path. -/
def wordFilterPhase (st : Settings) (db : DB) (chat_id user_id bot_id : Int)
    (text : String) (now : Nat) : DB × Outcome :=
  match st.bad_words.find? (fun w => containsSub (lowerStr w) (lowerStr text)) with
  | none => (db, Outcome.normal)
  | some word =>
    let p := Database.add_warning db chat_id user_id bot_id ("Мат: " ++ word) now
    if st.warn_limit ≤ p.2 then
      (p.1, Outcome.wordBanned word p.2)
    else
      (p.1, Outcome.wordWarned word p.2)

/-- `handle_messages` on a text message: delete and stop if the sender is
muted; update the user statistics; with antiflood enabled, append now to the
flood window, keep only timestamps within antiflood_seconds, store the window
back, and on strictly exceeding antiflood_count delete the message and persist
a 300 second mute; otherwise run the word filter. The TTL eviction of the
in-memory cache is not modeled (no claim depends on it). -/
def handle_messages (st : Settings) (env : Env) (chat_id user_id bot_id : Int)
    (text : String) (now : Nat) : Env × Outcome :=
  let m := Database.is_muted env.db chat_id user_id now
  if m.1 then
    ({ env with db := m.2 }, Outcome.mutedDeleted)
  else
    let db2 := Database.update_user_stats m.2 chat_id user_id now
    if st.antiflood_enabled then
      let key : Int × Int := (chat_id, user_id)
      let window := ((lookupKV key env.flood_cache).getD []) ++ [now]
      let window2 := window.filter (fun t => decide (now - t ≤ st.antiflood_seconds))
      let cache2 := upsertKV key window2 env.flood_cache
      if st.antiflood_count < window2.length then
        ({ db := (Database.add_mute db2 chat_id user_id 300 now).1,
           flood_cache := cache2 }, Outcome.floodMuted)
      else
        let p := wordFilterPhase st db2 chat_id user_id bot_id text now
        ({ db := p.1, flood_cache := cache2 }, p.2)
    else
      let p := wordFilterPhase st db2 chat_id user_id bot_id text now
      ({ db := p.1, flood_cache := env.flood_cache }, p.2)

/-- Sequential handling of a list of (text, timestamp) messages from one user,
collecting the outcomes. -/
def runMessages (st : Settings) (env : Env) (chat_id user_id bot_id : Int) :
    List (String × Nat) → Env × List Outcome
  | [] => (env, [])
  | (text, t) :: rest =>
    let p := handle_messages st env chat_id user_id bot_id text t
    let q := runMessages st p.1 chat_id user_id bot_id rest
    (q.1, p.2 :: q.2)

/-- Empty database: freshly created tables, AUTOINCREMENT at 1. -/
def emptyDB : DB := ⟨[], 1, [], []⟩

/-- Fresh process state: empty database and empty flood cache. -/
def emptyEnv : Env := ⟨emptyDB, []⟩

/-- Iterated `warn_command` against one user (reason fixed, created_at = step
index so that successive rows differ as the UNIQUE constraint guarantees). -/
def runWarn (db : DB) (chat_id target_id issuer_id : Int) (warn_limit : Nat) :
    Nat → DB
  | 0 => db
  | n + 1 =>
    (warn_command (runWarn db chat_id target_id issuer_id warn_limit n)
      chat_id target_id issuer_id "reason" warn_limit n).1

/-- Iterated `update_user_stats` over a list of call times. -/
def runStats (db : DB) (chat_id user_id : Int) (ts : List Nat) : DB :=
  ts.foldl (fun d t => Database.update_user_stats d chat_id user_id t) db

/-! Helper lemmas about the keyed tables. -/

theorem lookupKV_eraseKV_self {B : Type} (k : Int × Int) (l : List ((Int × Int) × B)) :
    lookupKV k (eraseKV k l) = none := by
  induction l with
  | nil => rfl
  | cons p rest ih =>
    rcases p with ⟨q, v⟩
    by_cases h : q = k
    · simpa [eraseKV, List.filter_cons, h] using ih
    · have h2 : ¬ k = q := fun hh => h hh.symm
      have hd : decide ((q, v).1 ≠ k) = true := by simp [h]
      simp only [eraseKV, List.filter_cons, hd, if_true]
      simp only [lookupKV, if_neg h2]
      simpa [eraseKV] using ih

theorem lookupKV_append_of_none {B : Type} (k : Int × Int) (l1 l2 : List ((Int × Int) × B))
    (h : lookupKV k l1 = none) :
    lookupKV k (l1 ++ l2) = lookupKV k l2 := by
  induction l1 with
  | nil => rfl
  | cons p rest ih =>
    rcases p with ⟨q, v⟩
    by_cases hq : k = q
    · simp only [lookupKV, if_pos hq] at h
      exact absurd h (by simp)
    · simp only [lookupKV, if_neg hq] at h
      rw [List.cons_append]
      simp only [lookupKV, if_neg hq]
      exact ih h

theorem lookupKV_upsertKV_self {B : Type} (k : Int × Int) (v : B)
    (l : List ((Int × Int) × B)) :
    lookupKV k (upsertKV k v l) = some v := by
  rw [upsertKV, lookupKV_append_of_none k _ _ (lookupKV_eraseKV_self k l)]
  simp [lookupKV]

/-! Helper lemmas about warning counts. -/

theorem count_add_warning (db : DB) (chat_id user_id warned_by : Int)
    (reason : String) (now : Nat) :
    (Database.add_warning db chat_id user_id warned_by reason now).2
      = Database.get_warnings_count db chat_id user_id + 1
    ∧ Database.get_warnings_count
        (Database.add_warning db chat_id user_id warned_by reason now).1 chat_id user_id
      = Database.get_warnings_count db chat_id user_id + 1 := by
  constructor <;>
  · simp only [Database.add_warning, Database.get_warnings_count, List.filter_append,
      List.length_append]
    simp [matchesUser]

theorem count_clear_warnings (db : DB) (chat_id user_id : Int) :
    Database.get_warnings_count (Database.clear_warnings db chat_id user_id) chat_id user_id
      = 0 := by
  simp only [Database.clear_warnings, Database.get_warnings_count]
  rw [List.length_eq_zero, List.filter_filter]
  apply List.filter_eq_nil_iff.mpr
  intro w _
  cases h : matchesUser chat_id user_id w <;> simp [h]

/-- C4: `is_muted` returns false with no record, true strictly before expiry,
and at or after expiry returns false while deleting the record, so that an
immediate second call again returns false and changes nothing. -/
theorem C4_is_muted_lifecycle (db : DB) (chat_id user_id : Int) (now : Nat) :
    (lookupKV (chat_id, user_id) db.muted_users = none →
        Database.is_muted db chat_id user_id now = (false, db))
    ∧ (∀ u, lookupKV (chat_id, user_id) db.muted_users = some u → now < u →
        Database.is_muted db chat_id user_id now = (true, db))
    ∧ (∀ u, lookupKV (chat_id, user_id) db.muted_users = some u → u ≤ now →
        (Database.is_muted db chat_id user_id now).1 = false
        ∧ lookupKV (chat_id, user_id)
            (Database.is_muted db chat_id user_id now).2.muted_users = none
        ∧ Database.is_muted (Database.is_muted db chat_id user_id now).2 chat_id user_id now
            = (false, (Database.is_muted db chat_id user_id now).2)) := by
  refine ⟨?_, ?_, ?_⟩
  · intro h
    simp [Database.is_muted, h]
  · intro u h hu
    simp [Database.is_muted, h, hu]
  · intro u h hu
    have hnot : ¬ now < u := by omega
    have h1 : Database.is_muted db chat_id user_id now
        = (false, Database.remove_mute db chat_id user_id) := by
      simp [Database.is_muted, h, hnot]
    rw [h1]
    have h2 : lookupKV (chat_id, user_id)
        (Database.remove_mute db chat_id user_id).muted_users = none := by
      simp only [Database.remove_mute]
      exact lookupKV_eraseKV_self _ _
    exact ⟨rfl, h2, by simp [Database.is_muted, h2]⟩

/-- Witness for C4 on a stored mute with expiry 5 queried at time 10. -/
theorem C4_is_muted_lifecycle_witness :
    (Database.is_muted ⟨[], 1, [((1, 2), 5)], []⟩ 1 2 10).1 = false
    ∧ lookupKV (1, 2)
        (Database.is_muted ⟨[], 1, [((1, 2), 5)], []⟩ 1 2 10).2.muted_users = none
    ∧ Database.is_muted (Database.is_muted ⟨[], 1, [((1, 2), 5)], []⟩ 1 2 10).2 1 2 10
        = (false, (Database.is_muted ⟨[], 1, [((1, 2), 5)], []⟩ 1 2 10).2) :=
  (C4_is_muted_lifecycle ⟨[], 1, [((1, 2), 5)], []⟩ 1 2 10).2.2 5 (by decide) (by decide)

/-- C5: a message from a currently muted sender is deleted and nothing else
happens: the returned state equals the input state (no statistics update, no
flood-window append, no word-filter check, no warning). -/
theorem C5_muted_message_dropped (st : Settings) (env : Env)
    (chat_id user_id bot_id : Int) (text : String) (now : Nat) (u : Nat)
    (hl : lookupKV (chat_id, user_id) env.db.muted_users = some u) (hu : now < u) :
    handle_messages st env chat_id user_id bot_id text now
      = (env, Outcome.mutedDeleted) := by
  have hm : Database.is_muted env.db chat_id user_id now = (true, env.db) := by
    simp [Database.is_muted, hl, hu]
  simp [handle_messages, hm]

/-- Witness for C5: a sender muted until 100 sends at time 0. -/
theorem C5_muted_message_dropped_witness :
    handle_messages ⟨3, true, 5, 10, []⟩ ⟨⟨[], 1, [((1, 2), 100)], []⟩, []⟩ 1 2 9 "hi" 0
      = (⟨⟨[], 1, [((1, 2), 100)], []⟩, []⟩, Outcome.mutedDeleted) :=
  C5_muted_message_dropped ⟨3, true, 5, 10, []⟩ ⟨⟨[], 1, [((1, 2), 100)], []⟩, []⟩
    1 2 9 "hi" 0 100 (by decide) (by decide)

/-- C7 counterexample: "0s" parses successfully to 0 seconds, yet
`mute_command` applies the 3600 second default (Python `if not duration`
treats 0 as falsy), so the claim that the default applies only on parse
failure is false. -/
theorem C7_mute_default_counterexample :
    parse_time "0s" = some 0
    ∧ (mute_command emptyDB 1 2 ["0s"] 1000).2 = 3600
    ∧ lookupKV (1, 2) (mute_command emptyDB 1 2 ["0s"] 1000).1.muted_users = some 4600 :=
  ⟨by decide, by decide, by decide⟩

/-- C7 amended: a token parsing to n with n nonzero mutes for n seconds; the
3600 second default applies when there is no token, when parsing fails, and
also when the token parses to 0; in every case the command still records a
mute (a parse failure never fails the command). -/
theorem C7_mute_duration_amended (db : DB) (chat_id target_id : Int)
    (args : List String) (now : Nat) :
    (∀ a rest n, args = a :: rest → parse_time a = some n → n ≠ 0 →
        (mute_command db chat_id target_id args now).2 = n)
    ∧ (args = [] → (mute_command db chat_id target_id args now).2 = 3600)
    ∧ (∀ a rest, args = a :: rest → parse_time a = none ∨ parse_time a = some 0 →
        (mute_command db chat_id target_id args now).2 = 3600)
    ∧ lookupKV (chat_id, target_id)
        (mute_command db chat_id target_id args now).1.muted_users
      = some (now + (mute_command db chat_id target_id args now).2) := by
  refine ⟨?_, ?_, ?_, ?_⟩
  · intro a rest n hargs hp hn
    subst hargs
    simp [mute_command, muteDuration, hp, hn]
  · intro hargs
    subst hargs
    simp [mute_command, muteDuration]
  · intro a rest hargs hp
    subst hargs
    rcases hp with hp | hp <;> simp [mute_command, muteDuration, hp]
  · simp only [mute_command, Database.add_mute]
    exact lookupKV_upsertKV_self _ _ _

/-- Witness for C7 amended: "5m" mutes for 300 seconds from time 7. -/
theorem C7_mute_duration_amended_witness :
    (mute_command emptyDB 1 2 ["5m"] 7).2 = 300
    ∧ lookupKV (1, 2) (mute_command emptyDB 1 2 ["5m"] 7).1.muted_users = some 307 := by
  have h := C7_mute_duration_amended emptyDB 1 2 ["5m"] 7
  have hd : (mute_command emptyDB 1 2 ["5m"] 7).2 = 300 :=
    h.1 "5m" [] 300 rfl (by decide) (by decide)
  refine ⟨hd, ?_⟩
  have h4 := h.2.2.2
  rw [hd] at h4
  exact h4

/-- C1: the manual /warn path: when the warning just added reaches or exceeds
the warn limit, a ban is issued and all warnings of the user are cleared, so
the stored count is 0 afterwards; below the limit no ban is issued and the
count becomes the previous count plus one; hence iterated warnings from a
clean slate count exactly 1, 2, ... while below the limit. -/
theorem C1_warn_limit_ban_reset (db : DB) (chat_id target_id issuer_id : Int)
    (reason : String) (warn_limit : Nat) (now : Nat) :
    (warn_limit ≤ Database.get_warnings_count db chat_id target_id + 1 →
        (warn_command db chat_id target_id issuer_id reason warn_limit now).2 = true
        ∧ Database.get_warnings_count
            (warn_command db chat_id target_id issuer_id reason warn_limit now).1
            chat_id target_id = 0)
    ∧ (Database.get_warnings_count db chat_id target_id + 1 < warn_limit →
        (warn_command db chat_id target_id issuer_id reason warn_limit now).2 = false
        ∧ Database.get_warnings_count
            (warn_command db chat_id target_id issuer_id reason warn_limit now).1
            chat_id target_id
          = Database.get_warnings_count db chat_id target_id + 1)
    ∧ (Database.get_warnings_count db chat_id target_id = 0 →
        ∀ n, n < warn_limit →
          Database.get_warnings_count
            (runWarn db chat_id target_id issuer_id warn_limit n) chat_id target_id
          = n) := by
  have hadd := count_add_warning db chat_id target_id issuer_id reason now
  refine ⟨?_, ?_, ?_⟩
  · intro hL
    have hw : warn_command db chat_id target_id issuer_id reason warn_limit now
        = (Database.clear_warnings
            (Database.add_warning db chat_id target_id issuer_id reason now).1
            chat_id target_id, true) := by
      simp only [warn_command]
      rw [hadd.1, if_pos hL]
    rw [hw]
    exact ⟨rfl, count_clear_warnings _ _ _⟩
  · intro hL
    have hnle : ¬ warn_limit ≤
        (Database.add_warning db chat_id target_id issuer_id reason now).2 := by
      rw [hadd.1]
      omega
    have hw : warn_command db chat_id target_id issuer_id reason warn_limit now
        = ((Database.add_warning db chat_id target_id issuer_id reason now).1, false) := by
      simp only [warn_command]
      rw [if_neg hnle]
    rw [hw]
    exact ⟨rfl, hadd.2⟩
  · intro h0 n
    induction n with
    | zero =>
      intro _
      simpa [runWarn] using h0
    | succ m ihm =>
      intro hm1
      have hcm := ihm (by omega)
      have haddm := count_add_warning (runWarn db chat_id target_id issuer_id warn_limit m)
        chat_id target_id issuer_id "reason" m
      have hnle : ¬ warn_limit ≤
          (Database.add_warning (runWarn db chat_id target_id issuer_id warn_limit m)
            chat_id target_id issuer_id "reason" m).2 := by
        rw [haddm.1, hcm]
        omega
      show Database.get_warnings_count
        (warn_command (runWarn db chat_id target_id issuer_id warn_limit m)
          chat_id target_id issuer_id "reason" warn_limit m).1 chat_id target_id = m + 1
      simp only [warn_command]
      rw [if_neg hnle]
      rw [haddm.2, hcm]

/-- Witness for C1 with warn limit 1: the first warning bans and clears. -/
theorem C1_warn_limit_ban_reset_witness :
    (warn_command emptyDB 1 2 3 "r" 1 0).2 = true
    ∧ Database.get_warnings_count (warn_command emptyDB 1 2 3 "r" 1 0).1 1 2 = 0 :=
  (C1_warn_limit_ban_reset emptyDB 1 2 3 "r" 1 0).1 (by decide)

/-! Helper lemmas for the user statistics. -/

theorem stats_step_absent (db : DB) (chat_id user_id : Int) (now : Nat)
    (h : lookupKV (chat_id, user_id) db.user_stats = none) :
    lookupKV (chat_id, user_id)
        (Database.update_user_stats db chat_id user_id now).user_stats
      = some ⟨1, now, now⟩ := by
  simp only [Database.update_user_stats, h]
  exact lookupKV_upsertKV_self _ _ _

theorem stats_step_present (db : DB) (chat_id user_id : Int) (now : Nat)
    (s : UserStatsRow)
    (h : lookupKV (chat_id, user_id) db.user_stats = some s) :
    lookupKV (chat_id, user_id)
        (Database.update_user_stats db chat_id user_id now).user_stats
      = some ⟨s.messages_count + 1, s.first_seen, now⟩ := by
  simp only [Database.update_user_stats, h]
  exact lookupKV_upsertKV_self _ _ _

theorem runStats_present (chat_id user_id : Int) (ts : List Nat) :
    ∀ (db : DB) (s : UserStatsRow),
      lookupKV (chat_id, user_id) db.user_stats = some s →
      lookupKV (chat_id, user_id) (runStats db chat_id user_id ts).user_stats
        = some ⟨s.messages_count + ts.length, s.first_seen, ts.getLastD s.last_seen⟩ := by
  induction ts with
  | nil =>
    intro db s h
    simpa [runStats] using h
  | cons t ts ih =>
    intro db s h
    have h2 := stats_step_present db chat_id user_id t s h
    have h3 := ih (Database.update_user_stats db chat_id user_id t)
      ⟨s.messages_count + 1, s.first_seen, t⟩ h2
    simp only [runStats, List.foldl_cons] at h3 ⊢
    rw [h3, List.getLastD_cons, List.length_cons]
    refine congrArg some ?_
    congr 1
    omega

theorem getLastD_mem_or (l : List Nat) (d : Nat) :
    l.getLastD d = d ∨ l.getLastD d ∈ l := by
  induction l generalizing d with
  | nil => exact Or.inl rfl
  | cons a as ih =>
    rw [List.getLastD_cons]
    rcases ih a with h | h
    · exact Or.inr (by rw [h]; exact List.mem_cons_self a as)
    · exact Or.inr (List.mem_cons_of_mem a h)

/-- C9: over any sequence of `update_user_stats` calls with nondecreasing call
times and no prior row, the stored row ends with messages_count equal to the
number of calls, first_seen equal to the first call time (never changed) and
last_seen equal to the last call time, and first_seen ≤ last_seen; moreover a
single call increments the count by exactly one (starting at 1) and always
sets last_seen to the call time. -/
theorem C9_user_stats (db : DB) (chat_id user_id : Int) (t0 : Nat)
    (rest : List Nat)
    (h0 : lookupKV (chat_id, user_id) db.user_stats = none)
    (hmono : List.Chain' (fun a b => a ≤ b) (t0 :: rest)) :
    lookupKV (chat_id, user_id)
        (runStats db chat_id user_id (t0 :: rest)).user_stats
      = some ⟨rest.length + 1, t0, rest.getLastD t0⟩
    ∧ t0 ≤ rest.getLastD t0 := by
  constructor
  · have h1 := stats_step_absent db chat_id user_id t0 h0
    have h3 := runStats_present chat_id user_id rest
      (Database.update_user_stats db chat_id user_id t0) ⟨1, t0, t0⟩ h1
    simp only [runStats, List.foldl_cons]
    simp only [runStats] at h3
    rw [h3]
    refine congrArg some ?_
    congr 1
    omega
  · have hp : List.Pairwise (fun a b => a ≤ b) (t0 :: rest) :=
      List.chain'_iff_pairwise.mp hmono
    have hle : ∀ b ∈ rest, t0 ≤ b := (List.pairwise_cons.mp hp).1
    rcases getLastD_mem_or rest t0 with h | h
    · rw [h]
    · exact hle _ h

/-- Witness for C9 over call times 5, 6, 7. -/
theorem C9_user_stats_witness :
    lookupKV (1, 2) (runStats emptyDB 1 2 (5 :: [6, 7])).user_stats
      = some ⟨3, 5, 7⟩
    ∧ (5 : Nat) ≤ 7 := by
  have h := C9_user_stats emptyDB 1 2 5 [6, 7] (by decide)
    (by simp [List.chain'_cons, List.chain'_singleton])
  exact ⟨h.1, h.2⟩

/-- C2 counterexample: chat with warn_limit 3 and bad word "spam"; three
banned-word messages one minute apart (outside the flood window) get the user
banned on the third, but the warnings are NOT cleared: the stored count is 3
(not 0) and a subsequent RemoveWarning returns 2 (not 0), contradicting the
claim that the word-filter path clears warnings like manual /warn. -/
theorem C2_word_filter_counterexample :
    (runMessages ⟨3, true, 5, 10, ["spam"]⟩ emptyEnv 1 2 9
        [("spam", 0), ("spam", 60), ("spam", 120)]).2
      = [Outcome.wordWarned "spam" 1, Outcome.wordWarned "spam" 2,
         Outcome.wordBanned "spam" 3]
    ∧ ¬ Database.get_warnings_count
        (runMessages ⟨3, true, 5, 10, ["spam"]⟩ emptyEnv 1 2 9
          [("spam", 0), ("spam", 60), ("spam", 120)]).1.db 1 2 = 0
    ∧ Database.get_warnings_count
        (runMessages ⟨3, true, 5, 10, ["spam"]⟩ emptyEnv 1 2 9
          [("spam", 0), ("spam", 60), ("spam", 120)]).1.db 1 2 = 3
    ∧ (Database.remove_warning
        (runMessages ⟨3, true, 5, 10, ["spam"]⟩ emptyEnv 1 2 9
          [("spam", 0), ("spam", 60), ("spam", 120)]).1.db 1 2).2 = 2 :=
  ⟨by decide, by decide, by decide, by decide⟩

/-- C2 amended: a Word Filter warning that reaches the warn limit takes the
ban branch, but unlike manual /warn the handler does not clear the warnings:
the stored count is the previous count plus one (in particular nonzero), so a
subsequent RemoveWarning does not find an empty set. -/
theorem C2_word_filter_ban_keeps_warnings (st : Settings) (db : DB)
    (chat_id user_id bot_id : Int) (text : String) (now : Nat) (w : String)
    (hw : st.bad_words.find? (fun v => containsSub (lowerStr v) (lowerStr text))
        = some w)
    (hc : st.warn_limit ≤ Database.get_warnings_count db chat_id user_id + 1) :
    (wordFilterPhase st db chat_id user_id bot_id text now).2
      = Outcome.wordBanned w (Database.get_warnings_count db chat_id user_id + 1)
    ∧ Database.get_warnings_count
        (wordFilterPhase st db chat_id user_id bot_id text now).1 chat_id user_id
      = Database.get_warnings_count db chat_id user_id + 1
    ∧ 0 < Database.get_warnings_count
        (wordFilterPhase st db chat_id user_id bot_id text now).1 chat_id user_id := by
  have hadd := count_add_warning db chat_id user_id bot_id ("Мат: " ++ w) now
  have hphase : wordFilterPhase st db chat_id user_id bot_id text now
      = ((Database.add_warning db chat_id user_id bot_id ("Мат: " ++ w) now).1,
         Outcome.wordBanned w (Database.get_warnings_count db chat_id user_id + 1)) := by
    simp only [wordFilterPhase, hw]
    rw [hadd.1, if_pos hc]
  rw [hphase]
  exact ⟨rfl, hadd.2, by rw [hadd.2]; omega⟩

/-- Witness for C2 amended: warn limit 1, bad word "x", message "ax". -/
theorem C2_word_filter_ban_keeps_warnings_witness :
    (wordFilterPhase ⟨1, true, 5, 10, ["x"]⟩ emptyDB 1 2 9 "ax" 0).2
      = Outcome.wordBanned "x" 1
    ∧ Database.get_warnings_count
        (wordFilterPhase ⟨1, true, 5, 10, ["x"]⟩ emptyDB 1 2 9 "ax" 0).1 1 2 = 1
    ∧ 0 < Database.get_warnings_count
        (wordFilterPhase ⟨1, true, 5, 10, ["x"]⟩ emptyDB 1 2 9 "ax" 0).1 1 2 :=
  C2_word_filter_ban_keeps_warnings ⟨1, true, 5, 10, ["x"]⟩ emptyDB 1 2 9 "ax" 0 "x"
    (by decide) (by decide)

/-! Helper lemmas for RemoveWarning. -/

theorem latestRow_foldl (l : List Warning) :
    ∀ b : Warning,
      ∃ w, l.foldl
          (fun acc x =>
            match acc with
            | none => some x
            | some b2 => if b2.created_at < x.created_at then some x else some b2)
          (some b) = some w
        ∧ (w = b ∨ w ∈ l) ∧ b.created_at ≤ w.created_at
        ∧ ∀ x ∈ l, x.created_at ≤ w.created_at := by
  induction l with
  | nil =>
    intro b
    exact ⟨b, rfl, Or.inl rfl, Nat.le_refl _, by simp⟩
  | cons a as ih =>
    intro b
    by_cases hab : b.created_at < a.created_at
    · rcases ih a with ⟨w, hw, hmem, hba, hall⟩
      refine ⟨w, ?_, ?_, ?_, ?_⟩
      · simpa [List.foldl_cons, hab] using hw
      · rcases hmem with h | h
        · exact Or.inr (by rw [h]; exact List.mem_cons_self a as)
        · exact Or.inr (List.mem_cons_of_mem a h)
      · omega
      · intro x hx
        rcases List.mem_cons.mp hx with h | h
        · rw [h]; exact hba
        · exact hall x h
    · rcases ih b with ⟨w, hw, hmem, hba, hall⟩
      refine ⟨w, ?_, ?_, ?_, ?_⟩
      · simpa [List.foldl_cons, hab] using hw
      · rcases hmem with h | h
        · exact Or.inl h
        · exact Or.inr (List.mem_cons_of_mem a h)
      · exact hba
      · intro x hx
        rcases List.mem_cons.mp hx with h | h
        · rw [h]; omega
        · exact hall x h

theorem latestRow_spec (l : List Warning) (hne : l ≠ []) :
    ∃ w, Database.latestRow l = some w ∧ w ∈ l
      ∧ ∀ x ∈ l, x.created_at ≤ w.created_at := by
  rcases l with _ | ⟨a, as⟩
  · exact absurd rfl hne
  rcases latestRow_foldl as a with ⟨w, hw, hmem, hba, hall⟩
  refine ⟨w, ?_, ?_, ?_⟩
  · simpa [Database.latestRow, List.foldl_cons] using hw
  · rcases hmem with h | h
    · rw [h]; exact List.mem_cons_self a as
    · exact List.mem_cons_of_mem a h
  · intro x hx
    rcases List.mem_cons.mp hx with h | h
    · rw [h]; exact hba
    · exact hall x h

theorem filter_ne_id_eq_erase (l : List Warning) (w : Warning) (hmem : w ∈ l)
    (hids : l.Pairwise (fun a b => a.id ≠ b.id)) :
    l.filter (fun x => decide (x.id ≠ w.id)) = l.erase w := by
  induction l with
  | nil => cases hmem
  | cons a as ih =>
    rcases List.pairwise_cons.mp hids with ⟨ha, hp⟩
    by_cases haw : a = w
    · subst haw
      rw [List.erase_cons_head, List.filter_cons]
      have hfa : decide (a.id ≠ a.id) = false := by simp
      rw [hfa]
      simp only [Bool.false_eq_true, if_false]
      apply List.filter_eq_self.mpr
      intro x hx
      simp only [decide_eq_true_eq, ne_eq]
      intro hxy
      exact (ha x hx) hxy.symm
    · have hwmem : w ∈ as := by
        rcases List.mem_cons.mp hmem with h | h
        · exact absurd h.symm haw
        · exact h
      have hfa : decide (a.id ≠ w.id) = true := by
        simp only [ne_eq, decide_eq_true_eq]
        exact ha w hwmem
      rw [List.filter_cons, hfa]
      simp only [if_true]
      rw [List.erase_cons_tail (by simp [haw]), ih hwmem hp]

/-- C8: RemoveWarning on a user with no warnings is a no-op returning 0; with
warnings present it deletes exactly the single most recently created warning
row of that user (all other rows kept) and returns the decremented count. The
hypotheses are the table invariants: ids are unique (AUTOINCREMENT) and
created_at values of one user are distinct (UNIQUE constraint). -/
theorem C8_remove_warning (db : DB) (chat_id user_id : Int)
    (hids : db.warnings.Pairwise (fun a b => a.id ≠ b.id))
    (hts : (db.warnings.filter (matchesUser chat_id user_id)).Pairwise
        (fun a b => a.created_at ≠ b.created_at)) :
    (Database.get_warnings_count db chat_id user_id = 0 →
        Database.remove_warning db chat_id user_id = (db, 0))
    ∧ (0 < Database.get_warnings_count db chat_id user_id →
        ∃ w, matchesUser chat_id user_id w = true ∧ w ∈ db.warnings
          ∧ (∀ x ∈ db.warnings, matchesUser chat_id user_id x = true → x ≠ w →
              x.created_at < w.created_at)
          ∧ (Database.remove_warning db chat_id user_id).1.warnings
              = db.warnings.erase w
          ∧ (Database.remove_warning db chat_id user_id).2
              = Database.get_warnings_count db chat_id user_id - 1) := by
  constructor
  · intro h0
    have hnil : db.warnings.filter (matchesUser chat_id user_id) = [] :=
      List.length_eq_zero.mp h0
    have hlr0 : Database.latestRow ([] : List Warning) = none := rfl
    have hr : Database.remove_warning db chat_id user_id
        = (db, Database.get_warnings_count db chat_id user_id) := by
      simp only [Database.remove_warning, hnil, hlr0]
    rw [hr, h0]
  · intro hpos
    have hfne : db.warnings.filter (matchesUser chat_id user_id) ≠ [] := by
      intro h
      rw [Database.get_warnings_count, h] at hpos
      simp at hpos
    rcases latestRow_spec _ hfne with ⟨w, hlr, hwf, hmax⟩
    have hmw : matchesUser chat_id user_id w = true := (List.mem_filter.mp hwf).2
    have hwmem : w ∈ db.warnings := (List.mem_filter.mp hwf).1
    have herase := filter_ne_id_eq_erase db.warnings w hwmem hids
    have hrw : Database.remove_warning db chat_id user_id
        = ({ db with warnings := db.warnings.filter (fun x => decide (x.id ≠ w.id)) },
           Database.get_warnings_count
             { db with warnings := db.warnings.filter (fun x => decide (x.id ≠ w.id)) }
             chat_id user_id) := by
      simp only [Database.remove_warning, hlr]
    have hsym : Symmetric (fun a b : Warning => a.created_at ≠ b.created_at) :=
      fun a b h => h.symm
    refine ⟨w, hmw, hwmem, ?_, ?_, ?_⟩
    · intro x hx hmx hxw
      have hxf : x ∈ db.warnings.filter (matchesUser chat_id user_id) :=
        List.mem_filter.mpr ⟨hx, hmx⟩
      have hne2 : x.created_at ≠ w.created_at := hts.forall hsym hxf hwf hxw
      have hle := hmax x hxf
      omega
    · rw [hrw]
      simpa using herase
    · rw [hrw]
      have hperm : List.Perm db.warnings (w :: db.warnings.erase w) :=
        List.perm_cons_erase hwmem
      have hlen := (hperm.filter (matchesUser chat_id user_id)).length_eq
      rw [List.filter_cons, if_pos hmw, List.length_cons] at hlen
      dsimp only [Database.get_warnings_count]
      rw [herase]
      omega

/-- Witness for C8 on a user with two warnings (created at 10 and 20): the
returned count is the old count minus one. -/
theorem C8_remove_warning_witness :
    (Database.remove_warning
        ⟨[⟨1, 1, 2, 9, "a", 10⟩, ⟨2, 1, 2, 9, "b", 20⟩], 3, [], []⟩ 1 2).2 = 1 := by
  obtain ⟨w, hmw, hmem, hmax, herase, hcount⟩ :=
    (C8_remove_warning ⟨[⟨1, 1, 2, 9, "a", 10⟩, ⟨2, 1, 2, 9, "b", 20⟩], 3, [], []⟩ 1 2
      (by decide) (by decide)).2 (by decide)
  rw [hcount]
  decide

/-! Helper lemmas for the antiflood pipeline. -/

theorem filter_window_all (now secs : Nat) (l : List Nat)
    (h : ∀ t ∈ l, now - t ≤ secs) :
    l.filter (fun t => decide (now - t ≤ secs)) = l := by
  apply List.filter_eq_self.mpr
  intro a ha
  exact decide_eq_true (h a ha)

/-- Reduction of `handle_messages` when the sender is not muted, antiflood is
enabled, the refreshed window w stays within the threshold, and the chat has
no bad words: only the statistics and the flood window change. -/
theorem handle_normal {L cnt secs : Nat} {db : DB}
    {cache : List ((Int × Int) × List Nat)} {chat_id user_id bot_id : Int}
    {text : String} {now : Nat} {w : List Nat}
    (hmute : lookupKV (chat_id, user_id) db.muted_users = none)
    (hwin : (((lookupKV (chat_id, user_id) cache).getD [] ++ [now]).filter
        (fun t => decide (now - t ≤ secs))) = w)
    (hlen : ¬ cnt < w.length) :
    handle_messages ⟨L, true, cnt, secs, []⟩ ⟨db, cache⟩ chat_id user_id bot_id text now
      = (⟨Database.update_user_stats db chat_id user_id now,
          upsertKV (chat_id, user_id) w cache⟩, Outcome.normal) := by
  have hm : Database.is_muted db chat_id user_id now = (false, db) := by
    simp [Database.is_muted, hmute]
  simp only [handle_messages, hm]
  rw [hwin]
  simp [wordFilterPhase, hlen]

/-- Reduction of `handle_messages` when the sender is not muted, antiflood is
enabled and the refreshed window w strictly exceeds the threshold: the
message is deleted and a 300 second mute persisted. -/
theorem handle_flood {L cnt secs : Nat} {db : DB}
    {cache : List ((Int × Int) × List Nat)} {chat_id user_id bot_id : Int}
    {text : String} {now : Nat} {w : List Nat}
    (hmute : lookupKV (chat_id, user_id) db.muted_users = none)
    (hwin : (((lookupKV (chat_id, user_id) cache).getD [] ++ [now]).filter
        (fun t => decide (now - t ≤ secs))) = w)
    (hlen : cnt < w.length) :
    handle_messages ⟨L, true, cnt, secs, []⟩ ⟨db, cache⟩ chat_id user_id bot_id text now
      = (⟨(Database.add_mute (Database.update_user_stats db chat_id user_id now)
            chat_id user_id 300 now).1,
          upsertKV (chat_id, user_id) w cache⟩, Outcome.floodMuted) := by
  have hm : Database.is_muted db chat_id user_id now = (false, db) := by
    simp [Database.is_muted, hmute]
  simp only [handle_messages, hm]
  rw [hwin]
  simp [hlen]

/-- One unfolding step of `runMessages` through a known handler result. -/
theorem runMessages_cons {st : Settings} {env : Env}
    {chat_id user_id bot_id : Int} {text : String} {t : Nat}
    {rest : List (String × Nat)} {e2 : Env} {o : Outcome}
    (h : handle_messages st env chat_id user_id bot_id text t = (e2, o)) :
    runMessages st env chat_id user_id bot_id ((text, t) :: rest)
      = ((runMessages st e2 chat_id user_id bot_id rest).1,
         o :: (runMessages st e2 chat_id user_id bot_id rest).2) := by
  simp only [runMessages, h]

/-- C3: with antiflood enabled at 5 messages per 10 seconds (and no bad
words), six messages from one user all within 10 seconds produce no flood
action on the first five (strict greater-than) and exactly one flood action on
the sixth, which deletes the message and stores a persisted mute of exactly
300 seconds. -/
theorem C3_antiflood_six_messages (L : Nat) (chat_id user_id bot_id : Int)
    (s1 s2 s3 s4 s5 s6 : String) (t1 t2 t3 t4 t5 t6 : Nat)
    (h12 : t1 ≤ t2) (h23 : t2 ≤ t3) (h34 : t3 ≤ t4) (h45 : t4 ≤ t5)
    (h56 : t5 ≤ t6) (hwin : t6 - t1 ≤ 10) :
    (runMessages ⟨L, true, 5, 10, []⟩ emptyEnv chat_id user_id bot_id
        [(s1, t1), (s2, t2), (s3, t3), (s4, t4), (s5, t5), (s6, t6)]).2
      = [Outcome.normal, Outcome.normal, Outcome.normal, Outcome.normal,
         Outcome.normal, Outcome.floodMuted]
    ∧ lookupKV (chat_id, user_id)
        (runMessages ⟨L, true, 5, 10, []⟩ emptyEnv chat_id user_id bot_id
          [(s1, t1), (s2, t2), (s3, t3), (s4, t4), (s5, t5), (s6, t6)]).1.db.muted_users
      = some (t6 + 300) := by

  have hw1 : (((lookupKV (chat_id, user_id) ([] : List ((Int × Int) × List Nat))).getD [] ++ [t1]).filter
      (fun t => decide (t1 - t ≤ 10))) = [t1] := by
    refine filter_window_all t1 10 [t1] ?_
    intro t ht
    simp only [List.mem_singleton] at ht
    subst ht
    omega
  have hw2 : (((lookupKV (chat_id, user_id) (upsertKV (chat_id, user_id) [t1] ([] : List ((Int × Int) × List Nat)))).getD [] ++ [t2]).filter
      (fun t => decide (t2 - t ≤ 10))) = [t1, t2] := by
    rw [lookupKV_upsertKV_self]
    refine filter_window_all t2 10 [t1, t2] ?_
    intro t ht
    simp only [List.mem_cons, List.mem_singleton, List.not_mem_nil, or_false] at ht
    rcases ht with rfl | rfl <;> omega
  have hw3 : (((lookupKV (chat_id, user_id) (upsertKV (chat_id, user_id) [t1, t2] (upsertKV (chat_id, user_id) [t1] ([] : List ((Int × Int) × List Nat))))).getD [] ++ [t3]).filter
      (fun t => decide (t3 - t ≤ 10))) = [t1, t2, t3] := by
    rw [lookupKV_upsertKV_self]
    refine filter_window_all t3 10 [t1, t2, t3] ?_
    intro t ht
    simp only [List.mem_cons, List.mem_singleton, List.not_mem_nil, or_false] at ht
    rcases ht with rfl | rfl | rfl <;> omega
  have hw4 : (((lookupKV (chat_id, user_id) (upsertKV (chat_id, user_id) [t1, t2, t3] (upsertKV (chat_id, user_id) [t1, t2] (upsertKV (chat_id, user_id) [t1] ([] : List ((Int × Int) × List Nat)))))).getD [] ++ [t4]).filter
      (fun t => decide (t4 - t ≤ 10))) = [t1, t2, t3, t4] := by
    rw [lookupKV_upsertKV_self]
    refine filter_window_all t4 10 [t1, t2, t3, t4] ?_
    intro t ht
    simp only [List.mem_cons, List.mem_singleton, List.not_mem_nil, or_false] at ht
    rcases ht with rfl | rfl | rfl | rfl <;> omega
  have hw5 : (((lookupKV (chat_id, user_id) (upsertKV (chat_id, user_id) [t1, t2, t3, t4] (upsertKV (chat_id, user_id) [t1, t2, t3] (upsertKV (chat_id, user_id) [t1, t2] (upsertKV (chat_id, user_id) [t1] ([] : List ((Int × Int) × List Nat))))))).getD [] ++ [t5]).filter
      (fun t => decide (t5 - t ≤ 10))) = [t1, t2, t3, t4, t5] := by
    rw [lookupKV_upsertKV_self]
    refine filter_window_all t5 10 [t1, t2, t3, t4, t5] ?_
    intro t ht
    simp only [List.mem_cons, List.mem_singleton, List.not_mem_nil, or_false] at ht
    rcases ht with rfl | rfl | rfl | rfl | rfl <;> omega
  have hw6 : (((lookupKV (chat_id, user_id) (upsertKV (chat_id, user_id) [t1, t2, t3, t4, t5] (upsertKV (chat_id, user_id) [t1, t2, t3, t4] (upsertKV (chat_id, user_id) [t1, t2, t3] (upsertKV (chat_id, user_id) [t1, t2] (upsertKV (chat_id, user_id) [t1] ([] : List ((Int × Int) × List Nat)))))))).getD [] ++ [t6]).filter
      (fun t => decide (t6 - t ≤ 10))) = [t1, t2, t3, t4, t5, t6] := by
    rw [lookupKV_upsertKV_self]
    refine filter_window_all t6 10 [t1, t2, t3, t4, t5, t6] ?_
    intro t ht
    simp only [List.mem_cons, List.mem_singleton, List.not_mem_nil, or_false] at ht
    rcases ht with rfl | rfl | rfl | rfl | rfl | rfl <;> omega
  have hl1 : ¬ 5 < ([t1] : List Nat).length := by simp
  have hl2 : ¬ 5 < ([t1, t2] : List Nat).length := by simp
  have hl3 : ¬ 5 < ([t1, t2, t3] : List Nat).length := by simp
  have hl4 : ¬ 5 < ([t1, t2, t3, t4] : List Nat).length := by simp
  have hl5 : ¬ 5 < ([t1, t2, t3, t4, t5] : List Nat).length := by simp
  have hl6 : 5 < ([t1, t2, t3, t4, t5, t6] : List Nat).length := by simp
  have hm1 : lookupKV (chat_id, user_id) emptyDB.muted_users = none := rfl
  have hm2 : lookupKV (chat_id, user_id) (Database.update_user_stats emptyDB chat_id user_id t1).muted_users = none := rfl
  have hm3 : lookupKV (chat_id, user_id) (Database.update_user_stats (Database.update_user_stats emptyDB chat_id user_id t1) chat_id user_id t2).muted_users = none := rfl
  have hm4 : lookupKV (chat_id, user_id) (Database.update_user_stats (Database.update_user_stats (Database.update_user_stats emptyDB chat_id user_id t1) chat_id user_id t2) chat_id user_id t3).muted_users = none := rfl
  have hm5 : lookupKV (chat_id, user_id) (Database.update_user_stats (Database.update_user_stats (Database.update_user_stats (Database.update_user_stats emptyDB chat_id user_id t1) chat_id user_id t2) chat_id user_id t3) chat_id user_id t4).muted_users = none := rfl
  have hm6 : lookupKV (chat_id, user_id) (Database.update_user_stats (Database.update_user_stats (Database.update_user_stats (Database.update_user_stats (Database.update_user_stats emptyDB chat_id user_id t1) chat_id user_id t2) chat_id user_id t3) chat_id user_id t4) chat_id user_id t5).muted_users = none := rfl
  have he1 : handle_messages ⟨L, true, 5, 10, []⟩ ⟨emptyDB, ([] : List ((Int × Int) × List Nat))⟩
      chat_id user_id bot_id s1 t1
      = (⟨(Database.update_user_stats emptyDB chat_id user_id t1), (upsertKV (chat_id, user_id) [t1] ([] : List ((Int × Int) × List Nat)))⟩, Outcome.normal) :=
    handle_normal hm1 hw1 hl1
  have he2 : handle_messages ⟨L, true, 5, 10, []⟩ ⟨(Database.update_user_stats emptyDB chat_id user_id t1), (upsertKV (chat_id, user_id) [t1] ([] : List ((Int × Int) × List Nat)))⟩
      chat_id user_id bot_id s2 t2
      = (⟨(Database.update_user_stats (Database.update_user_stats emptyDB chat_id user_id t1) chat_id user_id t2), (upsertKV (chat_id, user_id) [t1, t2] (upsertKV (chat_id, user_id) [t1] ([] : List ((Int × Int) × List Nat))))⟩, Outcome.normal) :=
    handle_normal hm2 hw2 hl2
  have he3 : handle_messages ⟨L, true, 5, 10, []⟩ ⟨(Database.update_user_stats (Database.update_user_stats emptyDB chat_id user_id t1) chat_id user_id t2), (upsertKV (chat_id, user_id) [t1, t2] (upsertKV (chat_id, user_id) [t1] ([] : List ((Int × Int) × List Nat))))⟩
      chat_id user_id bot_id s3 t3
      = (⟨(Database.update_user_stats (Database.update_user_stats (Database.update_user_stats emptyDB chat_id user_id t1) chat_id user_id t2) chat_id user_id t3), (upsertKV (chat_id, user_id) [t1, t2, t3] (upsertKV (chat_id, user_id) [t1, t2] (upsertKV (chat_id, user_id) [t1] ([] : List ((Int × Int) × List Nat)))))⟩, Outcome.normal) :=
    handle_normal hm3 hw3 hl3
  have he4 : handle_messages ⟨L, true, 5, 10, []⟩ ⟨(Database.update_user_stats (Database.update_user_stats (Database.update_user_stats emptyDB chat_id user_id t1) chat_id user_id t2) chat_id user_id t3), (upsertKV (chat_id, user_id) [t1, t2, t3] (upsertKV (chat_id, user_id) [t1, t2] (upsertKV (chat_id, user_id) [t1] ([] : List ((Int × Int) × List Nat)))))⟩
      chat_id user_id bot_id s4 t4
      = (⟨(Database.update_user_stats (Database.update_user_stats (Database.update_user_stats (Database.update_user_stats emptyDB chat_id user_id t1) chat_id user_id t2) chat_id user_id t3) chat_id user_id t4), (upsertKV (chat_id, user_id) [t1, t2, t3, t4] (upsertKV (chat_id, user_id) [t1, t2, t3] (upsertKV (chat_id, user_id) [t1, t2] (upsertKV (chat_id, user_id) [t1] ([] : List ((Int × Int) × List Nat))))))⟩, Outcome.normal) :=
    handle_normal hm4 hw4 hl4
  have he5 : handle_messages ⟨L, true, 5, 10, []⟩ ⟨(Database.update_user_stats (Database.update_user_stats (Database.update_user_stats (Database.update_user_stats emptyDB chat_id user_id t1) chat_id user_id t2) chat_id user_id t3) chat_id user_id t4), (upsertKV (chat_id, user_id) [t1, t2, t3, t4] (upsertKV (chat_id, user_id) [t1, t2, t3] (upsertKV (chat_id, user_id) [t1, t2] (upsertKV (chat_id, user_id) [t1] ([] : List ((Int × Int) × List Nat))))))⟩
      chat_id user_id bot_id s5 t5
      = (⟨(Database.update_user_stats (Database.update_user_stats (Database.update_user_stats (Database.update_user_stats (Database.update_user_stats emptyDB chat_id user_id t1) chat_id user_id t2) chat_id user_id t3) chat_id user_id t4) chat_id user_id t5), (upsertKV (chat_id, user_id) [t1, t2, t3, t4, t5] (upsertKV (chat_id, user_id) [t1, t2, t3, t4] (upsertKV (chat_id, user_id) [t1, t2, t3] (upsertKV (chat_id, user_id) [t1, t2] (upsertKV (chat_id, user_id) [t1] ([] : List ((Int × Int) × List Nat)))))))⟩, Outcome.normal) :=
    handle_normal hm5 hw5 hl5
  have he6 : handle_messages ⟨L, true, 5, 10, []⟩ ⟨(Database.update_user_stats (Database.update_user_stats (Database.update_user_stats (Database.update_user_stats (Database.update_user_stats emptyDB chat_id user_id t1) chat_id user_id t2) chat_id user_id t3) chat_id user_id t4) chat_id user_id t5), (upsertKV (chat_id, user_id) [t1, t2, t3, t4, t5] (upsertKV (chat_id, user_id) [t1, t2, t3, t4] (upsertKV (chat_id, user_id) [t1, t2, t3] (upsertKV (chat_id, user_id) [t1, t2] (upsertKV (chat_id, user_id) [t1] ([] : List ((Int × Int) × List Nat)))))))⟩
      chat_id user_id bot_id s6 t6
      = (⟨(Database.add_mute (Database.update_user_stats (Database.update_user_stats (Database.update_user_stats (Database.update_user_stats (Database.update_user_stats (Database.update_user_stats emptyDB chat_id user_id t1) chat_id user_id t2) chat_id user_id t3) chat_id user_id t4) chat_id user_id t5) chat_id user_id t6) chat_id user_id 300 t6).1, (upsertKV (chat_id, user_id) [t1, t2, t3, t4, t5, t6] (upsertKV (chat_id, user_id) [t1, t2, t3, t4, t5] (upsertKV (chat_id, user_id) [t1, t2, t3, t4] (upsertKV (chat_id, user_id) [t1, t2, t3] (upsertKV (chat_id, user_id) [t1, t2] (upsertKV (chat_id, user_id) [t1] ([] : List ((Int × Int) × List Nat))))))))⟩,
         Outcome.floodMuted) :=
    handle_flood hm6 hw6 hl6
  have hEnv : emptyEnv = (⟨emptyDB, ([] : List ((Int × Int) × List Nat))⟩ : Env) := rfl
  rw [hEnv, runMessages_cons he1, runMessages_cons he2, runMessages_cons he3,
    runMessages_cons he4, runMessages_cons he5, runMessages_cons he6]
  simp only [runMessages]
  exact ⟨trivial, lookupKV_upsertKV_self _ _ _⟩

/-- Witness for C3 at times 0, 2, 4, 6, 8, 10: the sixth message floods and a
mute until 310 is stored. -/
theorem C3_antiflood_six_messages_witness :
    (runMessages ⟨3, true, 5, 10, []⟩ emptyEnv 1 2 9
        [("a", 0), ("b", 2), ("c", 4), ("d", 6), ("e", 8), ("f", 10)]).2
      = [Outcome.normal, Outcome.normal, Outcome.normal, Outcome.normal,
         Outcome.normal, Outcome.floodMuted]
    ∧ lookupKV (1, 2)
        (runMessages ⟨3, true, 5, 10, []⟩ emptyEnv 1 2 9
          [("a", 0), ("b", 2), ("c", 4), ("d", 6), ("e", 8), ("f", 10)]).1.db.muted_users
      = some 310 := by
  have h := C3_antiflood_six_messages 3 1 2 9 "a" "b" "c" "d" "e" "f" 0 2 4 6 8 10
    (by decide) (by decide) (by decide) (by decide) (by decide) (by decide)
  exact ⟨h.1, h.2⟩

end GlavBot
